import Mathlib

/-!
Verification development for the palm-oil grading application.

Shallow embedding of the client-side inference plumbing:
- `src/lib/tflite/wasmClient.ts` (class `TFLiteClient`, function `imageDataToTensor`),
- the localStorage grading-history module (`getGradingHistory`, `saveGradingRecord`,
  `deleteGradingRecord`),
- the TensorFlow.js model cache (`loadModel` with `modelInstance` / `isLoading` /
  `loadPromise`),
- the two batch-inference entry points (`lib/tflite/index.ts` and the TF.js
  pipeline module `runBatchInference`).

Promises are modelled by identifiers (`Nat`); an operation returns, besides the
new state, the identifier of the promise the caller awaits, and message handlers
return the list of promise settlements they perform.  Two callers observe the
same outcome exactly when they hold the same promise identifier.  JavaScript
numbers are modelled by `Rat` (no claim here depends on floating-point rounding).
-/

/-- Outcome with which a promise is settled. -/
inductive Outcome where
  | initDone
  | inferResult (output : List Rat) (inferenceTimeMs : Rat)
  | failure (error : String)
deriving DecidableEq, Repr

/-- Message posted from the client to the worker
(`{type: 'init', modelUrl}` or `{type: 'infer', input, inputShape}`). -/
inductive WorkerInMsg where
  | initMsg (modelUrl : String)
  | inferMsg (input : List Nat) (inputShape : List Nat)
deriving DecidableEq, Repr

/-- Message posted from the worker back to the client
(`{type: 'result', output, inferenceTimeMs}` or `{type: 'error', error}`). -/
inductive WorkerOutMsg where
  | result (output : List Rat) (inferenceTimeMs : Rat)
  | error (error : String)
deriving DecidableEq, Repr

/-- Mutable fields of class `TFLiteClient` (src/lib/tflite/wasmClient.ts).
`worker` is modelled by presence (`hasWorker`); `initPromise` by the identifier
of the retained promise; `inferenceCallbacks` is the `Map` from message id to
the promise whose resolve/reject pair is stored there. -/
structure ClientState where
  hasWorker : Bool
  isInitialized : Bool
  initPromise : Option Nat
  inferenceCallbacks : List (Nat × Nat)
  messageId : Nat
  nextPromiseId : Nat
deriving DecidableEq, Repr

/-- A freshly constructed `TFLiteClient`. -/
def ClientState.fresh : ClientState :=
  { hasWorker := false, isInitialized := false, initPromise := none,
    inferenceCallbacks := [], messageId := 0, nextPromiseId := 0 }

/-- Map.set: insert or replace the binding for key `k`. -/
def setCallback (m : List (Nat × Nat)) (k v : Nat) : List (Nat × Nat) :=
  (k, v) :: m.filter (fun e => e.1 ≠ k)

/-- Map.get: look up the promise bound to message id `k`. -/
def lookupCallback (m : List (Nat × Nat)) (k : Nat) : Option Nat :=
  (m.find? (fun e => e.1 = k)).map (·.2)

/-- Map.delete: remove the binding for key `k`. -/
def removeCallback (m : List (Nat × Nat)) (k : Nat) : List (Nat × Nat) :=
  m.filter (fun e => e.1 ≠ k)

/-- Result observed by a caller of `init`. -/
inductive InitRet where
  | pending (promiseId : Nat)
  | done
deriving DecidableEq, Repr

namespace TFLiteClient

/-- Method `TFLiteClient.init` (wasmClient.ts lines 42-107).  Returns the new
state, what the caller awaits, and the messages posted to the worker.  If
`initPromise` is set it is returned as-is; if `isInitialized` the call resolves
immediately; otherwise a worker is created, the init callback is stored under
message id 0, and one `{type: 'init'}` message is posted.  (The browser-context
guard is outside the model: we embed the in-browser behaviour.) -/
def init (st : ClientState) (modelUrl : String) :
    ClientState × InitRet × List WorkerInMsg :=
  match st.initPromise with
  | some p => (st, .pending p, [])
  | none =>
    if st.isInitialized then
      (st, .done, [])
    else
      let p := st.nextPromiseId
      ({ st with
          hasWorker := true,
          initPromise := some p,
          inferenceCallbacks := setCallback st.inferenceCallbacks 0 p,
          nextPromiseId := p + 1 },
       .pending p, [.initMsg modelUrl])

/-- Error message thrown by `infer` when the client is not ready. -/
def notInitializedMsg : String := "TFLiteClient not initialized. Call init() first."

/-- Method `TFLiteClient.infer` (wasmClient.ts lines 116-136).  Throws
synchronously when not initialized or the worker is absent; otherwise bumps
`messageId`, stores the callbacks of a fresh promise under the new id, and
posts one `{type: 'infer'}` message. -/
def infer (st : ClientState) (input : List Nat) (inputShape : Option (List Nat)) :
    Except String (ClientState × Nat × WorkerInMsg) :=
  if !st.isInitialized || !st.hasWorker then
    .error notInitializedMsg
  else
    let msgId := st.messageId + 1
    let p := st.nextPromiseId
    .ok ({ st with
            messageId := msgId,
            inferenceCallbacks := setCallback st.inferenceCallbacks msgId p,
            nextPromiseId := p + 1 },
         p,
         .inferMsg input (inputShape.getD [1, 224, 224, 3]))

/-- Method `TFLiteClient.handleWorkerMessage` (wasmClient.ts lines 141-178).
On `{type: 'error'}` every pending callback is rejected and the map cleared
(no flag is touched).  On `{type: 'result'}` the message id is inferred from
the payload shape: output of length 1 with value 1 means the init callback
(id 0), anything else is attributed to the latest `messageId`; a missing
callback drops the message (console.warn).  The init callback sets
`isInitialized` before resolving. -/
def handleWorkerMessage (st : ClientState) (msg : WorkerOutMsg) :
    ClientState × List (Nat × Outcome) :=
  match msg with
  | .error e =>
      ({ st with inferenceCallbacks := [] },
       st.inferenceCallbacks.map (fun c => (c.2, Outcome.failure e)))
  | .result output t =>
      let mid := if output.length = 1 ∧ output.headD 0 = 1 then 0 else st.messageId
      match lookupCallback st.inferenceCallbacks mid with
      | some p =>
          if mid = 0 then
            ({ st with
                isInitialized := true,
                inferenceCallbacks := removeCallback st.inferenceCallbacks 0 },
             [(p, Outcome.initDone)])
          else
            ({ st with
                inferenceCallbacks := removeCallback st.inferenceCallbacks mid },
             [(p, Outcome.inferResult output t)])
      | none => (st, [])

/-- Method `TFLiteClient.terminate` (wasmClient.ts lines 183-193).  Releases
the worker if present, resets both flags and clears the callback map.  The
cleared callbacks are not rejected, so no settlement is produced. -/
def terminate (st : ClientState) : ClientState :=
  { st with
      hasWorker := false,
      isInitialized := false,
      initPromise := none,
      inferenceCallbacks := [] }

end TFLiteClient

/-- Iterate `init` n times with no interleaved worker activity, collecting the
values returned to the n callers and the messages posted to the worker.  This
models n concurrent `init` calls arriving before the worker answers. -/
def iterInit : Nat → ClientState → String → ClientState × List InitRet × List WorkerInMsg
  | 0, st, _ => (st, [], [])
  | n + 1, st, url =>
      let r1 := TFLiteClient.init st url
      let r2 := iterInit n r1.1 url
      (r2.1, r1.2.1 :: r2.2.1, r1.2.2 ++ r2.2.2)

/-- Module-level state of the TensorFlow.js model cache (`loadModel` in
lib/tflite/loadModel.ts): variables `modelInstance`, `isLoading`,
`loadPromise`.  The model value itself is irrelevant to the claims, so
`modelInstance` only records presence. -/
structure LoadModelState where
  modelInstance : Bool
  isLoading : Bool
  loadPromise : Option Nat
  nextPromiseId : Nat
deriving DecidableEq, Repr

/-- Fresh module state: nothing cached, no load in flight. -/
def LoadModelState.fresh : LoadModelState :=
  { modelInstance := false, isLoading := false, loadPromise := none, nextPromiseId := 0 }

/-- Result observed by a caller of `loadModel`. -/
inductive LoadRet where
  | cached
  | pending (promiseId : Nat)
deriving DecidableEq, Repr

/-- Function `loadModel` (lib/tflite/loadModel.ts).  Returns the cached model
at once when present; returns the in-progress promise when `isLoading` and
`loadPromise` are both set; otherwise starts one new load sequence (the final
`Nat` counts load sequences started by the call). -/
def loadModel (st : LoadModelState) : LoadModelState × LoadRet × Nat :=
  if st.modelInstance then
    (st, .cached, 0)
  else
    match st.loadPromise, st.isLoading with
    | some p, true => (st, .pending p, 0)
    | _, _ =>
        let p := st.nextPromiseId
        ({ modelInstance := st.modelInstance, isLoading := true,
           loadPromise := some p, nextPromiseId := p + 1 },
         .pending p, 1)

/-- Iterate `loadModel` n times with no interleaved completion, collecting the
n returned values and the total number of load sequences started. -/
def iterLoadModel : Nat → LoadModelState → LoadModelState × List LoadRet × Nat
  | 0, st => (st, [], 0)
  | n + 1, st =>
      let r1 := loadModel st
      let r2 := iterLoadModel n r1.1
      (r2.1, r1.2.1 :: r2.2.1, r1.2.2 + r2.2.2)

/-! Tensor conversion (`imageDataToTensor`, wasmClient.ts lines 211-251). -/

/-- An `ImageData` value: RGBA bytes row by row, `data.length = width*height*4`
for values produced by a canvas. -/
structure ImageData where
  width : Nat
  height : Nat
  data : List Nat
deriving DecidableEq, Repr

/-- The RGBA-to-RGB loop of `imageDataToTensor`: for each step of 4 it copies
the first three bytes and skips the fourth (alpha).  A read past the end of
the source yields `undefined`, stored as 0 in the `Uint8Array`, matching the
JavaScript semantics on (impossible for canvas data) partial trailing chunks. -/
def stripAlpha : List Nat → List Nat
  | [] => []
  | [r] => [r, 0, 0]
  | [r, g] => [r, g, 0]
  | [r, g, b] => [r, g, b]
  | r :: g :: b :: _ :: rest => r :: g :: b :: stripAlpha rest

/-- Function `imageDataToTensor` (wasmClient.ts lines 211-251).  The canvas
draw/resize step is platform behaviour, passed in as `resizeDraw`: it stands
for `ctx.drawImage` followed by `ctx.getImageData(0,0,targetWidth,targetHeight)`
and yields the RGBA bytes of the resized image.  The output buffer is
preallocated at `targetWidth*targetHeight*3` (writes past the end of a
`Uint8Array` are discarded, unwritten cells stay 0), then filled by the
RGBA-to-RGB loop. -/
def imageDataToTensor (resizeDraw : ImageData → Nat → Nat → List Nat)
    (imageData : ImageData) (targetWidth targetHeight : Nat) : List Nat :=
  let resizedData := resizeDraw imageData targetWidth targetHeight
  let rgb := stripAlpha resizedData
  rgb.take (targetWidth * targetHeight * 3) ++
    List.replicate (targetWidth * targetHeight * 3 - rgb.length) 0

/-! Grading-history storage (storage module: `getGradingHistory`,
`saveGradingRecord`, `deleteGradingRecord`).  The localStorage cell under
`palm_oil_grading_history` is modelled as `Option (List GradingRecord)`:
`none` for a missing key or unparsable JSON (both make `getGradingHistory`
return `[]`), `some l` for a stored array. -/

/-- A stored grading record. -/
structure GradingRecord where
  id : String
  imageUrl : String
  predictions : List Rat
  topClass : Int
  confidence : Rat
  inferenceTime : Rat
  timestamp : Int
  grade : Option String
deriving DecidableEq, Repr

/-- The caller-supplied part of a record
(`Omit<GradingRecord, 'id' | 'timestamp'>`). -/
structure GradingInput where
  imageUrl : String
  predictions : List Rat
  topClass : Int
  confidence : Rat
  inferenceTime : Rat
  grade : Option String
deriving DecidableEq, Repr

/-- Function `getGradingHistory`: parse the stored array, `[]` when the key is
missing or parsing fails. -/
def getGradingHistory (store : Option (List GradingRecord)) : List GradingRecord :=
  match store with
  | none => []
  | some l => l

/-- Function `saveGradingRecord`: read the history, unshift a new record built
from the input plus a generated id and the current time, keep the first 100
entries (`slice(0, 100)`), write back.  Returns the new store and the record. -/
def saveGradingRecord (store : Option (List GradingRecord)) (input : GradingInput)
    (newId : String) (now : Int) : Option (List GradingRecord) × GradingRecord :=
  let history := getGradingHistory store
  let newRecord : GradingRecord :=
    { id := newId, imageUrl := input.imageUrl, predictions := input.predictions,
      topClass := input.topClass, confidence := input.confidence,
      inferenceTime := input.inferenceTime, timestamp := now, grade := input.grade }
  let limitedHistory := (newRecord :: history).take 100
  (some limitedHistory, newRecord)

/-- Function `deleteGradingRecord`: read the history, keep the records whose
id differs, write the filtered array back.  All failures are caught and only
logged, so the function never throws; the model is total. -/
def deleteGradingRecord (store : Option (List GradingRecord)) (id : String) :
    Option (List GradingRecord) :=
  let history := getGradingHistory store
  some (history.filter (fun record => record.id ≠ id))

/-! Batch inference.  Two implementations exist: the backend-API module
(lib/tflite/index.ts) and the TensorFlow.js pipeline module
(runBatchInference in lib/tflite/runInference.ts). -/

/-- JavaScript `x || d` on a possibly-undefined number: undefined and 0 are
falsy. -/
def jsOrNum (x : Option Rat) (d : Rat) : Rat :=
  match x with
  | none => d
  | some v => if v = 0 then d else v

/-- JavaScript `x || d` where the fallback may itself be undefined. -/
def jsOrOpt (x : Option Rat) (d : Option Rat) : Option Rat :=
  match x with
  | none => d
  | some v => if v = 0 then d else some v

/-- JavaScript `l.indexOf(Math.max(...l))`: -1 on the empty array (the maximum
of no arguments is -Infinity, which is not found), else the index of the first
occurrence of the maximum. -/
def jsIndexOfMax (l : List Rat) : Int :=
  match l.max? with
  | none => -1
  | some m => (l.indexOf m : Int)

/-- JavaScript array indexing with a possibly negative index: undefined when
out of range. -/
def jsIdx (l : List Rat) (i : Int) : Option Rat :=
  if 0 ≤ i then l.get? i.toNat else none

/-- Parsed JSON body and status of the backend response to `POST /api/inference`. -/
structure FetchResp where
  ok : Bool
  status : Nat
  predictions : Option (List Rat)
  confidence : Option Rat
  inferenceTime : Option Rat
deriving DecidableEq, Repr

/-- Result type of the backend-API inference module (lib/tflite/index.ts).
`confidence` is `Option` because `data.confidence || predictions[topClass]`
can be undefined when both sides are. -/
structure InferenceResultApi where
  predictions : List Rat
  topClass : Int
  confidence : Option Rat
  inferenceTime : Rat
deriving DecidableEq, Repr

/-- Function `runInference` (lib/tflite/index.ts lines 31-63).  `fetchImpl`
stands for the `fetch` round-trip (an `Except.error` is a rejected fetch);
`totalTime` is the measured elapsed time.  A non-ok status throws
`Backend inference failed: <status>`. -/
def runInference (fetchImpl : String → Except String FetchResp) (totalTime : Rat)
    (imageDataUrl : String) : Except String InferenceResultApi :=
  match fetchImpl imageDataUrl with
  | .error e => .error e
  | .ok resp =>
    if !resp.ok then
      .error ("Backend inference failed: " ++ toString resp.status)
    else
      let predictions := resp.predictions.getD [jsOrNum resp.confidence (1 / 2)]
      let topClass := jsIndexOfMax predictions
      .ok { predictions := predictions,
            topClass := topClass,
            confidence := jsOrOpt resp.confidence (jsIdx predictions topClass),
            inferenceTime := jsOrNum resp.inferenceTime totalTime }

/-- Semantics of `Promise.all` at the level of settled values: fulfilled with
the list of results when every element fulfills, rejected when any element
rejects.  (Which rejection is reported depends on completion timing; the
list-order first is taken here — every claim below only depends on the call
being rejected.) -/
def promiseAll {α : Type} : List (Except String α) → Except String (List α)
  | [] => .ok []
  | .error e :: _ => .error e
  | .ok x :: rest => (promiseAll rest).map (fun xs => x :: xs)

/-- Function `runBatchInference` (lib/tflite/index.ts lines 94-99):
`Promise.all(imageDataUrls.map(url => runInference(url, options)))`. -/
def runBatchInference (fetchImpl : String → Except String FetchResp) (totalTime : Rat)
    (imageDataUrls : List String) : Except String (List InferenceResultApi) :=
  promiseAll (imageDataUrls.map (runInference fetchImpl totalTime))

/-- Result type of the TensorFlow.js pipeline module. -/
structure TfjsInferenceResult where
  predictions : List Rat
  inferenceTimeMs : Rat
  modelLoaded : Bool
deriving DecidableEq, Repr

/-- The failure placeholder pushed by the TF.js batch loop for a failed item. -/
def failedTfjsResult : TfjsInferenceResult :=
  { predictions := [], inferenceTimeMs := 0, modelLoaded := false }

/-- Function `runBatchInference` of the TF.js pipeline module
(lib/tflite/runInference.ts lines 220-249).  `loadModelResult` stands for the
one `await loadModel()` before the loop; `runInferenceImpl` for the per-item
`runInference` call.  Each item is run inside try/catch: a throwing item
contributes `failedTfjsResult` and the loop continues. -/
def runBatchInferenceTfjs (loadModelResult : Except String Unit)
    (runInferenceImpl : String → Except String TfjsInferenceResult)
    (dataUrls : List String) : Except String (List TfjsInferenceResult) :=
  match loadModelResult with
  | .error e => .error e
  | .ok _ =>
      .ok (dataUrls.map fun url =>
        match runInferenceImpl url with
        | .ok r => r
        | .error _ => failedTfjsResult)

/-! Concrete scenario states and example inputs used by the theorems below. -/

/-- Post-state of a successful `infer` call (on a state where `infer` throws,
the state is returned unchanged; every use below is on a ready state). -/
def inferStep (st : ClientState) (input : List Nat) : ClientState :=
  match TFLiteClient.infer st input none with
  | .ok r => r.1
  | .error _ => st

/-- Example model URL. -/
def modelUrlEx : String := "/models/model.tflite"

/-- Client right after a first `init` call: one load posted, awaiting the
worker (promise 0 held by the init caller under message id 0). -/
def clientAwaitingInit : ClientState :=
  (TFLiteClient.init ClientState.fresh modelUrlEx).1

/-- Ready client: the worker answered init with the success indicator
`Float32Array([1])`. -/
def clientReady : ClientState :=
  (TFLiteClient.handleWorkerMessage clientAwaitingInit (.result [1] 0)).1

/-- Ready client with one pending inference (request id 1, promise 1). -/
def clientOnePending : ClientState := inferStep clientReady [10, 20, 30]

/-- Ready client with two concurrent pending inferences
(request id 1 / promise 1 and request id 2 / promise 2). -/
def clientTwoPending : ClientState := inferStep clientOnePending [40, 50, 60]

/-- Client after the worker reported a failure during initialization. -/
def clientInitFailed : ClientState :=
  (TFLiteClient.handleWorkerMessage clientAwaitingInit (.error "Failed to load WASM module")).1

/-- Ready client whose one pending request was failed by a worker-side
runtime error. -/
def clientAfterRuntimeError : ClientState :=
  (TFLiteClient.handleWorkerMessage clientOnePending
      (.error "Inference failed. Error code: 1")).1

/-- Example backend: every URL succeeds except `bad.png`, which gets an
HTTP 500 response. -/
def exFetch : String → Except String FetchResp := fun url =>
  if url = "bad.png" then
    .ok { ok := false, status := 500, predictions := none,
          confidence := none, inferenceTime := none }
  else
    .ok { ok := true, status := 200, predictions := some [1 / 4, 3 / 4],
          confidence := some (3 / 4), inferenceTime := some 20 }

/-- Example per-item TF.js pipeline: every URL succeeds except `bad.png`,
which throws. -/
def exTfjsImpl : String → Except String TfjsInferenceResult := fun url =>
  if url = "bad.png" then .error "Inference failed: image decode failed"
  else .ok { predictions := [1 / 2, 1 / 2], inferenceTimeMs := 3, modelLoaded := true }

/-- Example resize: a 2 by 1 RGBA buffer (two pixels, eight bytes). -/
def exResizeDraw : ImageData → Nat → Nat → List Nat :=
  fun _ _ _ => [10, 20, 30, 40, 50, 60, 70, 80]

/-- Example stored record. -/
def exRecord : GradingRecord := ⟨"a", "u", [1], 0, 1, 2, 3, none⟩

/-- Example save payload. -/
def exInput : GradingInput := ⟨"u2", [0, 1], 1, 1, 5, none⟩

/-! Helper lemmas. -/

/-- While `initPromise` is set, every further `init` call returns that same
promise, changes nothing and posts nothing. -/
theorem iterInit_of_initPromise (n : Nat) (st : ClientState) (url : String) (p : Nat)
    (hp : st.initPromise = some p) :
    iterInit n st url = (st, List.replicate n (.pending p), []) := by
  induction n with
  | zero => simp [iterInit]
  | succ m ih => simp [iterInit, TFLiteClient.init, hp, ih, List.replicate_succ]

/-- While a model load is in flight, every further `loadModel` call returns
the in-progress promise and starts no load. -/
theorem iterLoadModel_of_loadPromise (n : Nat) (st : LoadModelState) (p : Nat)
    (h1 : st.modelInstance = false) (h2 : st.isLoading = true)
    (h3 : st.loadPromise = some p) :
    iterLoadModel n st = (st, List.replicate n (.pending p), 0) := by
  induction n with
  | zero => simp [iterLoadModel]
  | succ m ih => simp [iterLoadModel, loadModel, h1, h2, h3, ih, List.replicate_succ]

/-- Entry `3*k + c` (channel `c < 3` of pixel `k`) of the RGBA-to-RGB loop
output equals entry `4*k + c` of the input. -/
theorem stripAlpha_getD (data : List Nat) (k c : Nat) (hc : c < 3) :
    (stripAlpha data).getD (3 * k + c) 0 = data.getD (4 * k + c) 0 := by
  induction data using stripAlpha.induct generalizing k with
  | case1 => simp [stripAlpha]
  | case2 r =>
      interval_cases c <;> rcases k with _ | k <;>
        simp [stripAlpha, List.getD, Nat.mul_succ]
  | case3 r g =>
      interval_cases c <;> rcases k with _ | k <;>
        simp [stripAlpha, List.getD, Nat.mul_succ]
  | case4 r g b =>
      interval_cases c <;> rcases k with _ | k <;>
        simp [stripAlpha, List.getD, Nat.mul_succ]
  | case5 r g b a rest ih =>
      rcases k with _ | k
      · interval_cases c <;> simp [stripAlpha, List.getD]
      · have h3 : 3 * (k + 1) + c = (3 * k + c) + 1 + 1 + 1 := by ring
        have h4 : 4 * (k + 1) + c = (4 * k + c) + 1 + 1 + 1 + 1 := by ring
        rw [h3, h4]
        show (r :: g :: b :: stripAlpha rest).getD _ 0 = _
        simp only [List.getD_cons_succ]
        exact ih k

/-- The RGBA-to-RGB loop maps `4*m` bytes to `3*m` bytes. -/
theorem stripAlpha_length (data : List Nat) (m : Nat) (h : data.length = 4 * m) :
    (stripAlpha data).length = 3 * m := by
  induction data using stripAlpha.induct generalizing m with
  | case1 => simp [stripAlpha] at h ⊢; omega
  | case2 r => simp [stripAlpha] at h ⊢; omega
  | case3 r g => simp [stripAlpha] at h ⊢; omega
  | case4 r g b => simp [stripAlpha] at h ⊢; omega
  | case5 r g b a rest ih =>
      simp [stripAlpha] at h ⊢
      have := ih (m - 1) (by omega)
      omega

/-- If any listed URL makes `runInference` reject, the `Promise.all` batch of
lib/tflite/index.ts rejects as a whole. -/
theorem promiseAll_error_of_mem (fetchImpl : String → Except String FetchResp) (t : Rat)
    (urls : List String) (u : String) (e : String)
    (hu : u ∈ urls) (he : runInference fetchImpl t u = .error e) :
    ∃ e2, runBatchInference fetchImpl t urls = .error e2 := by
  induction urls with
  | nil => cases hu
  | cons a rest ih =>
      rcases List.mem_cons.mp hu with rfl | hmem
      · exact ⟨e, by simp [runBatchInference, promiseAll, he]⟩
      · cases hca : runInference fetchImpl t a with
        | error ea => exact ⟨ea, by simp [runBatchInference, promiseAll, hca]⟩
        | ok ra =>
            obtain ⟨e2, h2⟩ := ih hmem
            refine ⟨e2, ?_⟩
            simp only [runBatchInference, List.map_cons, promiseAll, hca]
            simp only [runBatchInference] at h2
            rw [h2]
            rfl

/-! Claim theorems. -/

/-- C1.  The claim says each concurrent caller receives only the response
matching its own identifier and that unmatched responses are dropped, never
misattributed.  The code instead dispatches `result` messages by a payload
shape heuristic and otherwise attributes them to the latest `messageId`: on a
ready client with two concurrent inferences (request 1 / promise 1 for caller
A, request 2 / promise 2 for caller B), the first arriving response — which the
in-order worker computed for request 1 — settles promise 2 (caller B), and the
second response is dropped, leaving caller A pending forever. -/
theorem infer_response_misattributed :
    TFLiteClient.infer clientReady [10, 20, 30] none
      = .ok (clientOnePending, 1, .inferMsg [10, 20, 30] [1, 224, 224, 3])
    ∧ TFLiteClient.infer clientOnePending [40, 50, 60] none
      = .ok (clientTwoPending, 2, .inferMsg [40, 50, 60] [1, 224, 224, 3])
    ∧ TFLiteClient.handleWorkerMessage clientTwoPending (.result [3, 7] 11)
      = ({ clientTwoPending with inferenceCallbacks := [(1, 1)] },
         [(2, .inferResult [3, 7] 11)])
    ∧ (TFLiteClient.handleWorkerMessage
        (TFLiteClient.handleWorkerMessage clientTwoPending (.result [3, 7] 11)).1
        (.result [4, 6] 12)).2 = []
    ∧ (TFLiteClient.handleWorkerMessage
        (TFLiteClient.handleWorkerMessage clientTwoPending (.result [3, 7] 11)).1
        (.result [4, 6] 12)).1.inferenceCallbacks = [(1, 1)] :=
  ⟨rfl, rfl, rfl, rfl, rfl⟩

/-- C2.  Initialization coalescing: n concurrent `init` calls (n at least 1)
issued on a fresh client before readiness post exactly one `{type: 'init'}`
load message, and every caller is handed the same promise (identifier 0), so
all observe the same success or failure outcome.  The same holds for the
TF.js model cache: n concurrent `loadModel` calls on a fresh module start
exactly one load sequence and all return the same in-flight promise. -/
theorem init_coalescing (n : Nat) (url : String) (hn : 1 ≤ n) :
    ((iterInit n ClientState.fresh url).2.2 = [.initMsg url]
      ∧ ∀ r ∈ (iterInit n ClientState.fresh url).2.1, r = InitRet.pending 0)
    ∧ ((iterLoadModel n LoadModelState.fresh).2.2 = 1
      ∧ ∀ r ∈ (iterLoadModel n LoadModelState.fresh).2.1, r = LoadRet.pending 0) := by
  obtain ⟨m, rfl⟩ : ∃ m, n = m + 1 := ⟨n - 1, (Nat.succ_pred_eq_of_pos hn).symm⟩
  have h1 : (TFLiteClient.init ClientState.fresh url).1.initPromise = some 0 := rfl
  have hi := iterInit_of_initPromise m (TFLiteClient.init ClientState.fresh url).1 url 0 h1
  have h2 := iterLoadModel_of_loadPromise m (loadModel LoadModelState.fresh).1 0 rfl rfl rfl
  constructor
  · constructor
    · simp [iterInit, hi]
      rfl
    · intro r hr
      simp [iterInit, hi] at hr
      rcases hr with hr | hr
      · rw [hr]; rfl
      · exact hr.2
  · constructor
    · simp [iterLoadModel, h2]
      rfl
    · intro r hr
      simp [iterLoadModel, h2] at hr
      rcases hr with hr | hr
      · rw [hr]; rfl
      · exact hr.2

/-- C2 witness: three concurrent `init` calls on a fresh client. -/
theorem init_coalescing_witness :
    1 ≤ 3
    ∧ (((iterInit 3 ClientState.fresh "/m.tflite").2.2 = [.initMsg "/m.tflite"]
        ∧ ∀ r ∈ (iterInit 3 ClientState.fresh "/m.tflite").2.1, r = InitRet.pending 0)
      ∧ ((iterLoadModel 3 LoadModelState.fresh).2.2 = 1
        ∧ ∀ r ∈ (iterLoadModel 3 LoadModelState.fresh).2.1, r = LoadRet.pending 0)) :=
  ⟨by norm_num, init_coalescing 3 "/m.tflite" (by norm_num)⟩

/-- C3 counterexample.  After a failed initialization the channel does not
reset to uninitialized: the error is surfaced (promise 0 is rejected), but
`initPromise` keeps holding the failed promise, and a later `init` call
returns exactly that promise and posts no new load — the retry the claim
promises never happens. -/
theorem init_failure_not_reset_cex :
    (TFLiteClient.handleWorkerMessage clientAwaitingInit
        (.error "Failed to load WASM module")).2
      = [(0, .failure "Failed to load WASM module")]
    ∧ clientInitFailed.isInitialized = false
    ∧ clientInitFailed.initPromise = some 0
    ∧ TFLiteClient.init clientInitFailed "/m2.tflite"
        = (clientInitFailed, .pending 0, []) :=
  ⟨rfl, rfl, rfl, rfl⟩

/-- C3 as amended.  When an initialization attempt fails, the channel rejects
every pending callback — in particular the shared init promise, so every
waiting caller observes the error — but it does not reset to uninitialized:
the failed promise is retained and a later `init` call returns it unchanged
with no new load, so the retry only becomes possible after `terminate`, after
which `init` does post a fresh load. -/
theorem init_failure_error_surfaced_promise_retained (st : ClientState) (url e : String)
    (p : Nat) (h0 : (0, p) ∈ st.inferenceCallbacks) (hp : st.initPromise = some p) :
    (p, Outcome.failure e) ∈ (TFLiteClient.handleWorkerMessage st (.error e)).2
    ∧ (∀ c ∈ st.inferenceCallbacks,
        (c.2, Outcome.failure e) ∈ (TFLiteClient.handleWorkerMessage st (.error e)).2)
    ∧ (TFLiteClient.handleWorkerMessage st (.error e)).1.initPromise = some p
    ∧ TFLiteClient.init (TFLiteClient.handleWorkerMessage st (.error e)).1 url
        = ((TFLiteClient.handleWorkerMessage st (.error e)).1, .pending p, [])
    ∧ (TFLiteClient.init (TFLiteClient.terminate st) url).2.2 = [.initMsg url] := by
  refine ⟨?_, ?_, ?_, ?_, ?_⟩
  · exact List.mem_map.mpr ⟨(0, p), h0, rfl⟩
  · intro c hc
    exact List.mem_map.mpr ⟨c, hc, rfl⟩
  · simpa [TFLiteClient.handleWorkerMessage] using hp
  · have h1 : (TFLiteClient.handleWorkerMessage st (.error e)).1
        = { st with inferenceCallbacks := [] } := rfl
    rw [h1]
    unfold TFLiteClient.init
    simp [hp]
  · simp [TFLiteClient.terminate, TFLiteClient.init]

/-- C3 witness: the failed initialization of the concrete awaiting client. -/
theorem init_failure_retained_witness :
    ((0, 0) ∈ clientAwaitingInit.inferenceCallbacks
      ∧ clientAwaitingInit.initPromise = some 0)
    ∧ ((0, Outcome.failure "boom")
          ∈ (TFLiteClient.handleWorkerMessage clientAwaitingInit (.error "boom")).2
      ∧ (∀ c ∈ clientAwaitingInit.inferenceCallbacks,
          (c.2, Outcome.failure "boom")
            ∈ (TFLiteClient.handleWorkerMessage clientAwaitingInit (.error "boom")).2)
      ∧ (TFLiteClient.handleWorkerMessage clientAwaitingInit (.error "boom")).1.initPromise
          = some 0
      ∧ TFLiteClient.init
            (TFLiteClient.handleWorkerMessage clientAwaitingInit (.error "boom")).1 "/m.tflite"
          = ((TFLiteClient.handleWorkerMessage clientAwaitingInit (.error "boom")).1,
             .pending 0, [])
      ∧ (TFLiteClient.init (TFLiteClient.terminate clientAwaitingInit) "/m.tflite").2.2
          = [.initMsg "/m.tflite"]) :=
  ⟨⟨by decide, rfl⟩,
   init_failure_error_surfaced_promise_retained clientAwaitingInit "/m.tflite" "boom" 0
     (by decide) rfl⟩

/-- C4 counterexample.  A worker-side error does fail the pending request and
clear the map, but it does not force re-initialization: `isInitialized` stays
true, a further `infer` call is accepted (request id 2, promise 2) with no
intervening `init`, and the next worker result resolves it successfully. -/
theorem worker_error_infer_still_accepted_cex :
    (TFLiteClient.handleWorkerMessage clientOnePending
        (.error "Inference failed. Error code: 1")).2
      = [(1, .failure "Inference failed. Error code: 1")]
    ∧ clientAfterRuntimeError.inferenceCallbacks = []
    ∧ clientAfterRuntimeError.isInitialized = true
    ∧ TFLiteClient.infer clientAfterRuntimeError [7, 8, 9] none
        = .ok ({ clientAfterRuntimeError with
                  messageId := 2, inferenceCallbacks := [(2, 2)], nextPromiseId := 3 },
               2, .inferMsg [7, 8, 9] [1, 224, 224, 3])
    ∧ (TFLiteClient.handleWorkerMessage
        ({ clientAfterRuntimeError with
            messageId := 2, inferenceCallbacks := [(2, 2)], nextPromiseId := 3 })
        (.result [2, 8] 5)).2 = [(2, .inferResult [2, 8] 5)] :=
  ⟨rfl, rfl, rfl, rfl, rfl⟩

/-- C4 as amended.  On a worker-side error message the channel rejects all
currently pending requests and clears the pending map; but it does not force
re-initialization: the `isInitialized` and worker fields are untouched, so on
a previously ready client a further `infer` call is accepted without `init`
being called again. -/
theorem worker_error_rejects_pending_no_forced_reinit (st : ClientState) (e : String)
    (input : List Nat) (inputShape : Option (List Nat))
    (hInit : st.isInitialized = true) (hW : st.hasWorker = true) :
    (TFLiteClient.handleWorkerMessage st (.error e)).2
        = st.inferenceCallbacks.map (fun c => (c.2, Outcome.failure e))
    ∧ (TFLiteClient.handleWorkerMessage st (.error e)).1.inferenceCallbacks = []
    ∧ (TFLiteClient.handleWorkerMessage st (.error e)).1.isInitialized = st.isInitialized
    ∧ (TFLiteClient.handleWorkerMessage st (.error e)).1.hasWorker = st.hasWorker
    ∧ ∃ st2 p msg,
        TFLiteClient.infer (TFLiteClient.handleWorkerMessage st (.error e)).1 input inputShape
          = .ok (st2, p, msg) := by
  refine ⟨rfl, rfl, rfl, rfl, ?_⟩
  have h1 : (TFLiteClient.handleWorkerMessage st (.error e)).1
      = { st with inferenceCallbacks := [] } := rfl
  rw [h1]
  unfold TFLiteClient.infer
  simp [hInit, hW]

/-- C4 witness: the ready client with one pending request. -/
theorem worker_error_no_forced_reinit_witness :
    (clientOnePending.isInitialized = true ∧ clientOnePending.hasWorker = true)
    ∧ ((TFLiteClient.handleWorkerMessage clientOnePending (.error "abort")).2
          = clientOnePending.inferenceCallbacks.map (fun c => (c.2, Outcome.failure "abort"))
      ∧ (TFLiteClient.handleWorkerMessage clientOnePending (.error "abort")).1.inferenceCallbacks
          = []
      ∧ (TFLiteClient.handleWorkerMessage clientOnePending (.error "abort")).1.isInitialized
          = clientOnePending.isInitialized
      ∧ (TFLiteClient.handleWorkerMessage clientOnePending (.error "abort")).1.hasWorker
          = clientOnePending.hasWorker
      ∧ ∃ st2 p msg,
          TFLiteClient.infer (TFLiteClient.handleWorkerMessage clientOnePending
              (.error "abort")).1 [7] none
            = .ok (st2, p, msg)) :=
  ⟨⟨rfl, rfl⟩,
   worker_error_rejects_pending_no_forced_reinit clientOnePending "abort" [7] none rfl rfl⟩

/-- C5 counterexample.  The backend-API batch entry point
(`runBatchInference` in lib/tflite/index.ts) does not have partial-failure
semantics: with three images of which the second gets an HTTP 500, the whole
batch call rejects instead of returning three results. -/
theorem batch_whole_failure_cex :
    runBatchInference exFetch 10 ["a.png", "bad.png", "c.png"]
      = .error "Backend inference failed: 500" := by
  rfl

/-- C5 as amended.  Partial-failure semantics holds for the TF.js pipeline
batch (`runBatchInference` in the runInference module): once the model load
succeeds it returns exactly one result per input, a failing item k yielding
the failure placeholder and every other item its own result.  The backend-API
batch (`runBatchInference` in lib/tflite/index.ts) instead rejects as a whole
as soon as any single item fails. -/
theorem batch_inference_semantics
    (runInferenceImpl : String → Except String TfjsInferenceResult)
    (fetchImpl : String → Except String FetchResp) (t : Rat)
    (urls : List String) (u : String) (e : String)
    (hu : u ∈ urls) (he : runInference fetchImpl t u = .error e) :
    (∃ rs, runBatchInferenceTfjs (.ok ()) runInferenceImpl urls = .ok rs
      ∧ rs.length = urls.length
      ∧ ∀ k : Nat, ∀ v, urls[k]? = some v →
          rs[k]? = some (match runInferenceImpl v with
            | .ok r => r
            | .error _ => failedTfjsResult))
    ∧ ∃ e2, runBatchInference fetchImpl t urls = .error e2 := by
  constructor
  · refine ⟨_, rfl, by simp [runBatchInferenceTfjs], ?_⟩
    intro k v hv
    simp [runBatchInferenceTfjs, List.getElem?_map, hv]
  · exact promiseAll_error_of_mem fetchImpl t urls u e hu he

/-- C5 witness: a three-image batch whose second image is malformed. -/
theorem batch_inference_semantics_witness :
    ("bad.png" ∈ ["a.png", "bad.png", "c.png"]
      ∧ runInference exFetch 10 "bad.png" = .error "Backend inference failed: 500")
    ∧ ((∃ rs, runBatchInferenceTfjs (.ok ()) exTfjsImpl ["a.png", "bad.png", "c.png"] = .ok rs
        ∧ rs.length = (["a.png", "bad.png", "c.png"] : List String).length
        ∧ ∀ k : Nat, ∀ v, (["a.png", "bad.png", "c.png"] : List String)[k]? = some v →
            rs[k]? = some (match exTfjsImpl v with
              | .ok r => r
              | .error _ => failedTfjsResult))
      ∧ ∃ e2, runBatchInference exFetch 10 ["a.png", "bad.png", "c.png"] = .error e2) :=
  ⟨⟨by decide, rfl⟩,
   batch_inference_semantics exTfjsImpl exFetch 10 ["a.png", "bad.png", "c.png"]
     "bad.png" "Backend inference failed: 500" (by decide) rfl⟩

/-- C6.  For every input image and target dimensions, given that the resize
step yields the canvas-guaranteed `width*height*4` RGBA bytes, the produced
tensor buffer has length exactly `width*height*3`, and its entry at position
`3*k + c` (c = 0, 1, 2) is channel c (R, G, B) of pixel k of the resized
image — the alpha byte `4*k + 3` of a pixel is never copied. -/
theorem imageDataToTensor_spec (resizeDraw : ImageData → Nat → Nat → List Nat)
    (img : ImageData) (tw th : Nat)
    (hlen : (resizeDraw img tw th).length = tw * th * 4) :
    (imageDataToTensor resizeDraw img tw th).length = tw * th * 3
    ∧ ∀ k, k < tw * th → ∀ c, c < 3 →
        (imageDataToTensor resizeDraw img tw th).getD (3 * k + c) 0
          = (resizeDraw img tw th).getD (4 * k + c) 0 := by
  have hsl : (stripAlpha (resizeDraw img tw th)).length = 3 * (tw * th) :=
    stripAlpha_length _ _ (by rw [hlen]; ring)
  have heq : imageDataToTensor resizeDraw img tw th
      = stripAlpha (resizeDraw img tw th) := by
    show (stripAlpha (resizeDraw img tw th)).take (tw * th * 3) ++
        List.replicate (tw * th * 3 - (stripAlpha (resizeDraw img tw th)).length) 0
      = stripAlpha (resizeDraw img tw th)
    rw [show tw * th * 3 = 3 * (tw * th) by ring, ← hsl, List.take_length, Nat.sub_self]
    simp
  refine ⟨?_, ?_⟩
  · rw [heq, hsl]; ring
  · intro k _ c hc
    rw [heq]
    exact stripAlpha_getD _ k c hc

/-- C6 witness: a two-pixel resized image. -/
theorem imageDataToTensor_spec_witness :
    (exResizeDraw ⟨1, 1, [1, 2, 3, 4]⟩ 2 1).length = 2 * 1 * 4
    ∧ ((imageDataToTensor exResizeDraw ⟨1, 1, [1, 2, 3, 4]⟩ 2 1).length = 2 * 1 * 3
      ∧ ∀ k, k < 2 * 1 → ∀ c, c < 3 →
          (imageDataToTensor exResizeDraw ⟨1, 1, [1, 2, 3, 4]⟩ 2 1).getD (3 * k + c) 0
            = (exResizeDraw ⟨1, 1, [1, 2, 3, 4]⟩ 2 1).getD (4 * k + c) 0) :=
  ⟨by decide, imageDataToTensor_spec exResizeDraw ⟨1, 1, [1, 2, 3, 4]⟩ 2 1 (by decide)⟩

/-- C7.  Saving onto a stored history of exactly 100 records yields exactly
100 records again: the newly saved record first, followed by the previous
first 99 in unchanged order — the 100th (oldest) record is evicted.  For any
starting history whatsoever, the stored history after a save never exceeds
100 entries. -/
theorem saveGradingRecord_retention (store : Option (List GradingRecord))
    (input : GradingInput) (newId : String) (now : Int)
    (h : (getGradingHistory store).length = 100) :
    getGradingHistory (saveGradingRecord store input newId now).1
      = (saveGradingRecord store input newId now).2 :: (getGradingHistory store).take 99
    ∧ (getGradingHistory (saveGradingRecord store input newId now).1).length = 100
    ∧ ∀ anyStore : Option (List GradingRecord),
        (getGradingHistory (saveGradingRecord anyStore input newId now).1).length ≤ 100 := by
  refine ⟨?_, ?_, ?_⟩
  · show ((_ :: getGradingHistory store).take 100) = _
    rw [show (100 : Nat) = 99 + 1 by norm_num, List.take_succ_cons]
    rfl
  · show ((_ :: getGradingHistory store).take 100).length = 100
    simp [List.length_take, h]
  · intro anyStore
    show ((_ :: getGradingHistory anyStore).take 100).length ≤ 100
    simp [List.length_take]

/-- C7 witness: a store holding exactly 100 records. -/
theorem saveGradingRecord_retention_witness :
    (getGradingHistory (some (List.replicate 100 exRecord))).length = 100
    ∧ (getGradingHistory (saveGradingRecord (some (List.replicate 100 exRecord)) exInput "b" 7).1
        = (saveGradingRecord (some (List.replicate 100 exRecord)) exInput "b" 7).2
            :: (getGradingHistory (some (List.replicate 100 exRecord))).take 99
      ∧ (getGradingHistory
          (saveGradingRecord (some (List.replicate 100 exRecord)) exInput "b" 7).1).length = 100
      ∧ ∀ anyStore : Option (List GradingRecord),
          (getGradingHistory (saveGradingRecord anyStore exInput "b" 7).1).length ≤ 100) :=
  ⟨by simp [getGradingHistory],
   saveGradingRecord_retention _ _ _ _ (by simp [getGradingHistory])⟩

/-- C8.  Teardown: `terminate` is idempotent (and total, so a second call in
a row produces no error), it leaves no worker, both flags reset, the init
promise dropped and the pending map cleared, and a subsequent `init` performs
a fresh initialization, posting a new load message. -/
theorem terminate_idempotent (st : ClientState) (url : String) :
    TFLiteClient.terminate (TFLiteClient.terminate st) = TFLiteClient.terminate st
    ∧ (TFLiteClient.terminate st).hasWorker = false
    ∧ (TFLiteClient.terminate st).isInitialized = false
    ∧ (TFLiteClient.terminate st).initPromise = none
    ∧ (TFLiteClient.terminate st).inferenceCallbacks = []
    ∧ (TFLiteClient.init (TFLiteClient.terminate st) url).2.2 = [.initMsg url] :=
  ⟨rfl, rfl, rfl, rfl, rfl, rfl⟩

/-- C9.  Whenever the channel is not ready (`isInitialized` false or the
worker absent — in particular before `init` has completed), `infer` fails
synchronously with the explicit error message, which literally contains the
phrase `not initialized`; no pending entry is created, so nothing hangs. -/
theorem infer_not_ready_fails_fast (st : ClientState) (input : List Nat)
    (inputShape : Option (List Nat))
    (h : st.isInitialized = false ∨ st.hasWorker = false) :
    TFLiteClient.infer st input inputShape = .error TFLiteClient.notInitializedMsg
    ∧ TFLiteClient.notInitializedMsg
        = "TFLiteClient " ++ "not initialized" ++ ". Call init() first." := by
  constructor
  · unfold TFLiteClient.infer
    rcases h with h | h <;> simp [h]
  · rfl

/-- C9 witness: the client that is still awaiting its init response. -/
theorem infer_not_ready_fails_fast_witness :
    (clientAwaitingInit.isInitialized = false ∨ clientAwaitingInit.hasWorker = false)
    ∧ (TFLiteClient.infer clientAwaitingInit [1, 2, 3] none
        = .error TFLiteClient.notInitializedMsg
      ∧ TFLiteClient.notInitializedMsg
          = "TFLiteClient " ++ "not initialized" ++ ". Call init() first.") :=
  ⟨Or.inl rfl, infer_not_ready_fails_fast clientAwaitingInit [1, 2, 3] none (Or.inl rfl)⟩

/-- C10.  `deleteGradingRecord` always succeeds (it writes some array back and
never throws), removes exactly the records whose id equals the given id, keeps
every other record in the same relative order (the result is a sublist of the
original history), and when no stored record carries the id, the stored
history is left unchanged. -/
theorem deleteGradingRecord_exact (store : Option (List GradingRecord)) (id : String) :
    (∃ l, deleteGradingRecord store id = some l)
    ∧ (getGradingHistory (deleteGradingRecord store id)).Sublist (getGradingHistory store)
    ∧ (∀ r : GradingRecord,
        r ∈ getGradingHistory (deleteGradingRecord store id)
          ↔ r ∈ getGradingHistory store ∧ r.id ≠ id)
    ∧ ((∀ r ∈ getGradingHistory store, r.id ≠ id)
        → getGradingHistory (deleteGradingRecord store id) = getGradingHistory store) := by
  refine ⟨⟨_, rfl⟩, ?_, ?_, ?_⟩
  · show (getGradingHistory (some _)).Sublist _
    simp only [getGradingHistory]
    exact List.filter_sublist (getGradingHistory store)
  · intro r
    show r ∈ getGradingHistory (some _) ↔ _
    simp [getGradingHistory, List.mem_filter]
  · intro hall
    show getGradingHistory (some _) = _
    simp only [getGradingHistory]
    rw [List.filter_eq_self]
    intro a ha
    simpa using hall a ha

/-- C10 witness: deleting an id that is not present leaves the single stored
record untouched. -/
theorem deleteGradingRecord_exact_witness :
    ((∀ r ∈ getGradingHistory (some [exRecord]), r.id ≠ "zzz")
      → getGradingHistory (deleteGradingRecord (some [exRecord]) "zzz")
          = getGradingHistory (some [exRecord]))
    ∧ (∀ r ∈ getGradingHistory (some [exRecord]), r.id ≠ "zzz")
    ∧ getGradingHistory (deleteGradingRecord (some [exRecord]) "zzz")
        = getGradingHistory (some [exRecord]) :=
  ⟨(deleteGradingRecord_exact (some [exRecord]) "zzz").2.2.2, by decide,
   (deleteGradingRecord_exact (some [exRecord]) "zzz").2.2.2 (by decide)⟩
